import Mathlib

/-!
Shallow embedding of `part-2-database-setup/app.py`: a Flask application with
two routes over a file-backed relational store holding `user` and `todo`
tables.  The store and the two entity shapes are modelled as Lean structures;
each route handler becomes a pure function from the store state to the new
store state together with the rendered response.
-/

/-- Modelled from the spec: the `User` entity declared in `models.py` (the
models module is not present under `src/`): identifier (auto-assigned,
unique), username (text, required), email (text, required), optional phone
number (text), password hash (text, required). -/
structure User where
  id : Nat
  username : String
  email : String
  phone : Option String
  password_hash : String
deriving DecidableEq, Repr

/-- Modelled from the spec: the `Todo` entity declared in `models.py` (the
models module is not present under `src/`): identifier (auto-assigned,
unique), task description (text, required), foreign reference to the owning
User's identifier. -/
structure Todo where
  id : Nat
  task_content : String
  user_id : Nat
deriving DecidableEq, Repr

/-- The file-backed relational store: the `user` and `todo` tables, plus the
auto-increment counters the store uses to assign identifiers on commit. -/
structure DB where
  users : List User
  todos : List Todo
  nextUserId : Nat
  nextTodoId : Nat
deriving DecidableEq, Repr

/-- A freshly initialized (empty) store, as left by `init_db(app)`:
both tables exist and are empty, identifiers start at 1. -/
def DB.empty : DB := ⟨[], [], 1, 1⟩

/-- `User.query.count()` -/
def DB.userCount (d : DB) : Nat := d.users.length

/-- `Todo.query.count()` -/
def DB.todoCount (d : DB) : Nat := d.todos.length

/-- The first commit of the seed branch (`app.py` lines 43-63): construct
`user1`, `user2`, `user3` (only `user2` with a phone value), `add_all` and
`commit`; the store assigns consecutive fresh identifiers on commit.  Returns
the updated store together with the identifier assigned to `user1` (the code
reads `user1.id`, `user2.id`, `user3.id` back after the commit). -/
def seedUsersOp (d : DB) : DB × Nat :=
  let i := d.nextUserId
  let user1 : User := ⟨i, "user1", "user1@example.com", none, "pass"⟩
  let user2 : User := ⟨i + 1, "user2", "user2@example.com", some "123-456-7890", "pass"⟩
  let user3 : User := ⟨i + 2, "user3", "user3@example.com", none, "pass"⟩
  ({ d with users := d.users ++ [user1, user2, user3], nextUserId := i + 3 }, i)

/-- The second commit of the seed branch (`app.py` lines 66-71): construct
`todo1`, `todo2`, `todo3` with the owner identifiers read back from the three
just-committed users (`user1.id = i`, `user2.id = i + 1`, `user3.id = i + 2`),
`add_all` and `commit`. -/
def seedTodosOp (d : DB) (i : Nat) : DB :=
  let j := d.nextTodoId
  let todo1 : Todo := ⟨j, "Learn Flask", i⟩
  let todo2 : Todo := ⟨j + 1, "Learn SQLAlchemy", i + 1⟩
  let todo3 : Todo := ⟨j + 2, "Build Todo App", i + 2⟩
  { d with todos := d.todos ++ [todo1, todo2, todo3], nextTodoId := j + 3 }

/-- The `/test-db` handler (`app.py` lines 34-94): if `User.query.count() == 0`
run the two-commit seed branch, then query all users and all todos and render
them with status 200.  Returns the store state after the request together with
the response status and the two rendered lists. -/
def test_db (d : DB) : DB × Nat × List User × List Todo :=
  let d2 :=
    if d.userCount = 0 then
      let p := seedUsersOp d
      seedTodosOp p.1 p.2
    else d
  (d2, 200, d2.users, d2.todos)

/-- The `/` handler (`app.py` lines 29-32): render the static index page with
status 200.  The store is untouched. -/
def home (d : DB) : DB × Nat := (d, 200)

/-- The `/test-db` handler with a storage-layer fault injected at the second
commit: when `fail2` is true and the seed branch runs, the storage layer raises
after the first commit has persisted the users and before the todos commit;
there is no `try`/`except` in `app.py`, so the exception propagates out of the
handler unhandled (`Except.error`).  The returned store is the state persisted
when the request ends. -/
def test_db_fault (d : DB) (fail2 : Bool) :
    DB × Except Unit (Nat × List User × List Todo) :=
  if d.userCount = 0 then
    let p := seedUsersOp d
    if fail2 then
      (p.1, Except.error ())
    else
      let d2 := seedTodosOp p.1 p.2
      (d2, Except.ok (200, d2.users, d2.todos))
  else
    (d, Except.ok (200, d.users, d.todos))

/-- `n` successive completed `/test-db` requests. -/
def applyTestDb : Nat → DB → DB
  | 0, d => d
  | n + 1, d => applyTestDb n (test_db d).1

/-- Store states reachable from a fresh store by completed requests to the two
routes of `app.py`. -/
inductive Reachable : DB → Prop
  | init : Reachable DB.empty
  | homeStep {d : DB} : Reachable d → Reachable (home d).1
  | testStep {d : DB} : Reachable d → Reachable (test_db d).1

/-- Referential integrity: every Todo's owner reference resolves to an
existing User row. -/
def refIntegrity (d : DB) : Prop :=
  ∀ t ∈ d.todos, ∃ u ∈ d.users, u.id = t.user_id

/-- The store state after one `/test-db` request on a fresh store. -/
def seededDB : DB := (test_db DB.empty).1

/-- When the guard sees a non-zero user count the handler changes nothing. -/
theorem test_db_skip {d : DB} (h : d.userCount ≠ 0) : (test_db d).1 = d := by
  simp [test_db, h]

/-- A store whose user count is non-zero is a fixed point of any number of
`/test-db` requests. -/
theorem applyTestDb_fixed {d : DB} (h : d.userCount ≠ 0) (n : Nat) :
    applyTestDb n d = d := by
  induction n with
  | zero => rfl
  | succ n ih => rw [applyTestDb, test_db_skip h, ih]

/-- Every reachable store state is either the fresh store or the seeded
store. -/
theorem reachable_cases {d : DB} (h : Reachable d) :
    d = DB.empty ∨ d = seededDB := by
  induction h with
  | init => exact Or.inl rfl
  | homeStep _ ih => simpa [home] using ih
  | testStep _ ih =>
      rcases ih with h | h <;> subst h
      · exact Or.inr rfl
      · refine Or.inr ?_
        have hne : seededDB.userCount ≠ 0 := by decide
        rw [test_db_skip hne]

/-- C1: for a freshly initialized (empty) store, one request to the diagnostic
route `/test-db` results in exactly 3 User rows and exactly 3 Todo rows, with
each Todo's owner reference resolving to a distinct User. -/
theorem C1_fresh_store_seed :
    (test_db DB.empty).1.userCount = 3 ∧
    (test_db DB.empty).1.todoCount = 3 ∧
    (test_db DB.empty).1.todos.map Todo.user_id
      = (test_db DB.empty).1.users.map User.id ∧
    ((test_db DB.empty).1.users.map User.id).Nodup := by
  decide

/-- C2: after one `/test-db` request on a fresh store, a second `/test-db`
request leaves the User row count and the Todo row count unchanged. -/
theorem C2_second_request_idempotent :
    (test_db (test_db DB.empty).1).1.userCount = (test_db DB.empty).1.userCount ∧
    (test_db (test_db DB.empty).1).1.todoCount = (test_db DB.empty).1.todoCount := by
  decide

/-- C3: from any store with exactly one User row and zero Todo rows, a single
`/test-db` request leaves the Todo count at zero: the guard counts only Users,
so it skips seeding, and nothing else inserts Todos. -/
theorem C3_one_user_keeps_zero_todos (d : DB)
    (h1 : d.userCount = 1) (h2 : d.todoCount = 0) :
    (test_db d).1.todoCount = 0 := by
  have hne : d.userCount ≠ 0 := by omega
  rw [test_db_skip hne]
  exact h2

/-- A concrete store holding one User row and no Todo rows. -/
def dbOneUser : DB :=
  ⟨[⟨1, "alice", "alice@example.com", none, "pass"⟩], [], 2, 1⟩

/-- Witness for C3 at the concrete one-user store. -/
theorem C3_one_user_keeps_zero_todos_witness :
    dbOneUser.userCount = 1 ∧ dbOneUser.todoCount = 0 ∧
    (test_db dbOneUser).1.todoCount = 0 :=
  ⟨by decide, by decide,
    C3_one_user_keeps_zero_todos dbOneUser (by decide) (by decide)⟩

/-- C4: whenever the seed branch runs (guard sees zero users), the three
inserted users carry the literal usernames `user1`, `user2`, `user3`; among
them only `user2` carries the phone value `123-456-7890`; and the three
inserted todos carry the literal task texts `Learn Flask`, `Learn SQLAlchemy`,
`Build Todo App` respectively, owned by `user1`, `user2`, `user3` in that
order. -/
theorem C4_seed_literals (d : DB) (h : d.userCount = 0) :
    (test_db d).1.users.map User.username = ["user1", "user2", "user3"] ∧
    (test_db d).1.users.map User.phone = [none, some "123-456-7890", none] ∧
    ((test_db d).1.todos.drop d.todos.length).map Todo.task_content
      = ["Learn Flask", "Learn SQLAlchemy", "Build Todo App"] ∧
    ((test_db d).1.todos.drop d.todos.length).map Todo.user_id
      = (test_db d).1.users.map User.id := by
  have hu : d.users = [] := List.length_eq_zero.mp h
  refine ⟨?_, ?_, ?_, ?_⟩ <;>
    simp [test_db, DB.userCount, hu, seedUsersOp, seedTodosOp, List.drop_left]

/-- Witness for C4 at the fresh store. -/
theorem C4_seed_literals_witness :
    DB.empty.userCount = 0 ∧
    ((test_db DB.empty).1.users.map User.username = ["user1", "user2", "user3"] ∧
     (test_db DB.empty).1.users.map User.phone = [none, some "123-456-7890", none] ∧
     ((test_db DB.empty).1.todos.drop DB.empty.todos.length).map Todo.task_content
       = ["Learn Flask", "Learn SQLAlchemy", "Build Todo App"] ∧
     ((test_db DB.empty).1.todos.drop DB.empty.todos.length).map Todo.user_id
       = (test_db DB.empty).1.users.map User.id) :=
  ⟨by decide, C4_seed_literals DB.empty (by decide)⟩

/-- C5: the seed branch commits in two separate sequential steps and is not
atomic.  If a storage-layer error is raised after the first commit and before
the second, the exception propagates out of the handler unhandled, the three
users remain persisted with zero todos, and every number of subsequent
`/test-db` requests sees a non-zero User count and skips seeding, so the
users-without-todos state is permanent. -/
theorem C5_crash_between_commits_is_permanent :
    (test_db_fault DB.empty true).2 = Except.error () ∧
    (test_db_fault DB.empty true).1.userCount = 3 ∧
    (test_db_fault DB.empty true).1.todoCount = 0 ∧
    ∀ n : Nat,
      (applyTestDb n (test_db_fault DB.empty true).1).userCount = 3 ∧
      (applyTestDb n (test_db_fault DB.empty true).1).todoCount = 0 := by
  refine ⟨rfl, by decide, by decide, fun n => ?_⟩
  have hne : (test_db_fault DB.empty true).1.userCount ≠ 0 := by decide
  rw [applyTestDb_fixed hne]
  exact ⟨by decide, by decide⟩

/-- C6: in every store state reachable from the empty store by requests to the
two routes, every Todo's owner reference resolves to an existing User row. -/
theorem C6_referential_integrity {d : DB} (h : Reachable d) : refIntegrity d := by
  rcases reachable_cases h with h | h <;> subst h <;> unfold refIntegrity <;> decide

/-- Witness for C6 at the fresh store. -/
theorem C6_referential_integrity_witness : refIntegrity DB.empty :=
  C6_referential_integrity Reachable.init

/-- C7: no operation of the application deletes a User or Todo row: the home
handler leaves the store unchanged, and after a `/test-db` request every User
and Todo row present before is still present (the old tables are sublists of
the new ones). -/
theorem C7_no_row_is_ever_deleted (d : DB) :
    (home d).1 = d ∧
    d.users.Sublist (test_db d).1.users ∧
    d.todos.Sublist (test_db d).1.todos := by
  refine ⟨rfl, ?_, ?_⟩ <;> by_cases h0 : d.userCount = 0 <;>
    simp [test_db, h0, seedUsersOp, seedTodosOp, List.sublist_append_left]

/-- C8: for every store state, a request to the home route `/` returns status
200 and leaves the store state entirely unchanged. -/
theorem C8_home_is_pure (d : DB) : (home d).2 = 200 ∧ (home d).1 = d :=
  ⟨rfl, rfl⟩

/-- C9: from any store with zero User rows (even with pre-existing Todo rows),
one `/test-db` request still runs the seed branch: afterwards there are exactly
3 User rows, the pre-existing Todos are kept with exactly 3 new Todos appended,
and each new Todo references one of the 3 new users. -/
theorem C9_guard_ignores_todos (d : DB) (h : d.userCount = 0) :
    (test_db d).1.userCount = 3 ∧
    (test_db d).1.todoCount = d.todoCount + 3 ∧
    ((test_db d).1.todos.take d.todos.length = d.todos) ∧
    ∀ t ∈ (test_db d).1.todos.drop d.todos.length,
      t.user_id ∈ (test_db d).1.users.map User.id := by
  have hu : d.users = [] := List.length_eq_zero.mp h
  refine ⟨?_, ?_, ?_, ?_⟩ <;>
    simp [test_db, DB.userCount, DB.todoCount, hu, seedUsersOp, seedTodosOp,
      List.drop_left, List.take_left]

/-- A concrete store with no User rows but one pre-existing Todo row. -/
def dbOrphanTodo : DB := ⟨[], [⟨1, "stale task", 7⟩], 1, 2⟩

/-- Witness for C9 at a store holding an orphan Todo and no users. -/
theorem C9_guard_ignores_todos_witness :
    dbOrphanTodo.userCount = 0 ∧
    ((test_db dbOrphanTodo).1.userCount = 3 ∧
     (test_db dbOrphanTodo).1.todoCount = dbOrphanTodo.todoCount + 3 ∧
     ((test_db dbOrphanTodo).1.todos.take dbOrphanTodo.todos.length
        = dbOrphanTodo.todos) ∧
     ∀ t ∈ (test_db dbOrphanTodo).1.todos.drop dbOrphanTodo.todos.length,
       t.user_id ∈ (test_db dbOrphanTodo).1.users.map User.id) :=
  ⟨by decide, C9_guard_ignores_todos dbOrphanTodo (by decide)⟩

/-- C10: the interleaving in which two `/test-db` requests both evaluate the
empty-check on the fresh store before either commits (both reads see zero
users, so both take the seed branch), after which each request performs its two
commits in turn: the result holds six users, with each seed username
duplicated — no uniqueness constraint on username or email prevents this. -/
theorem C10_race_duplicates_seed_users :
    DB.empty.userCount = 0 ∧
    (let r1u := seedUsersOp DB.empty
     let r1 := seedTodosOp r1u.1 r1u.2
     let r2u := seedUsersOp r1
     let r2 := seedTodosOp r2u.1 r2u.2
     r2.userCount = 6 ∧
     (r2.users.map User.username).count "user1" = 2 ∧
     (r2.users.map User.username).count "user2" = 2 ∧
     (r2.users.map User.username).count "user3" = 2) := by
  decide
